import Mathlib

/-!
# Verification of the Substack subscriber-analytics metrics engine

Shallow embedding of the pure data-transformation core of the repository
(`metrics.py`, `analytics.py`, and the list-cleaning categorization in
`app.py`), together with theorems checking the specification's claims.

Modelling conventions:
* dataframe rows become Lean structures, tables become `List`s;
* timestamps are integers (seconds); `timedelta(days = n)` is `n * day`;
* `Series.nunique` is `nunique`: length of the deduplicated projection;
* Python floats that stay finite are embedded as `ℚ`; where pandas can
  produce `inf`/`NaN` (float division followed by `fillna`), the value is
  embedded as `PdFloat` so the IEEE special cases are kept;
* optional (nullable) columns are `Option` values, and pandas comparisons
  against `NaT`/`NaN` (always `False`) are the `none` branches below.
-/

namespace Substack

/-- One engagement-event row (`opens`/`delivers` tables share this shape,
loaded by `data_loader.load_engagement_data`): `email`, `post_id`,
`timestamp`. -/
structure Event where
  email : String
  post_id : Int
  timestamp : Int
deriving DecidableEq, Repr

/-- One row of the subscribers table (`data_loader.load_subscribers`). -/
structure Subscriber where
  email : String
  created_at : Int
  first_payment_at : Option Int
  expiry : Option Int
  email_disabled : Bool
  active_subscription : Bool
deriving DecidableEq, Repr

/-- Derived column from `data_loader.py` line 39:
`df['is_paid'] = df['first_payment_at'].notna()`. -/
def Subscriber.is_paid (s : Subscriber) : Bool :=
  s.first_payment_at.isSome

/-- One second-resolution day, the unit behind `timedelta(days = n)`. -/
def day : Int := 86400

/-- `Series.nunique` on the projection `f` of the rows `l`: the number of
distinct values. -/
def nunique {α β : Type} [DecidableEq β] (f : α → β) (l : List α) : Nat :=
  ((l.map f).dedup).length

/-- `metrics.rate_open_rate`: benchmark ladder for open rates. -/
def rate_open_rate (rate : ℚ) : String :=
  if rate ≥ 45/100 then "Excellent"
  else if rate ≥ 30/100 then "Good"
  else if rate ≥ 20/100 then "Average"
  else "Poor"

/-- `metrics.rate_growth`: benchmark ladder for list growth rates. -/
def rate_growth (rate : ℚ) : String :=
  if rate ≥ 5/100 then "Excellent"
  else if rate ≥ 2/100 then "Good"
  else if rate ≥ 0 then "Slow"
  else "Negative growth"

/-- `metrics.rate_churn`: benchmark ladder for paid churn (lower is better). -/
def rate_churn (rate : ℚ) : String :=
  if rate < 1/100 then "Excellent"
  else if rate < 3/100 then "Good"
  else if rate < 5/100 then "Average"
  else "Poor"

/-- The filtering performed at the top of `metrics.calculate_open_rate`:
`if post_id:` is Python truthiness, false both for `None` and for `0`, so
the tables are filtered only for a nonzero `post_id`. -/
def filterPost (post_id : Option Int) (l : List Event) : List Event :=
  match post_id with
  | none => l
  | some p => if p = 0 then l else l.filter (fun e => e.post_id == p)

/-- Result record of `metrics.calculate_open_rate` (the presentational
`metric`/`percentage`/`benchmark` strings are omitted). -/
structure OpenRateResult where
  value : ℚ
  unique_opens : Nat
  total_delivered : Nat
  rating : String
deriving DecidableEq, Repr

/-- `metrics.calculate_open_rate` (metrics.py lines 94-116). -/
def calculate_open_rate (opens delivers : List Event) (post_id : Option Int) :
    OpenRateResult :=
  let opens' := filterPost post_id opens
  let delivers' := filterPost post_id delivers
  let unique_opens := nunique Event.email opens'
  let total_delivered := nunique Event.email delivers'
  let rate : ℚ :=
    if total_delivered > 0 then (unique_opens : ℚ) / (total_delivered : ℚ) else 0
  ⟨rate, unique_opens, total_delivered, rate_open_rate rate⟩

/-- C1: for every opens table and delivers table (after the function's own
optional post filter), the open-rate computation returns the ratio of
distinct emails in opens to distinct emails in delivers; when the delivers
side has zero distinct emails the rate is exactly `0` with the floor rating
`"Poor"`, and the function is total (never raises, never yields NaN). -/
theorem calculate_open_rate_spec (opens delivers : List Event)
    (post_id : Option Int) :
    (calculate_open_rate opens delivers post_id).unique_opens
        = nunique Event.email (filterPost post_id opens)
    ∧ (calculate_open_rate opens delivers post_id).total_delivered
        = nunique Event.email (filterPost post_id delivers)
    ∧ (calculate_open_rate opens delivers post_id).value
        = (if nunique Event.email (filterPost post_id delivers) = 0 then 0
           else (nunique Event.email (filterPost post_id opens) : ℚ)
                / (nunique Event.email (filterPost post_id delivers) : ℚ))
    ∧ (nunique Event.email (filterPost post_id delivers) = 0 →
        (calculate_open_rate opens delivers post_id).value = 0
          ∧ (calculate_open_rate opens delivers post_id).rating = "Poor") := by
  refine ⟨rfl, rfl, ?_, ?_⟩
  · show (if 0 < nunique Event.email (filterPost post_id delivers) then _ else _) = _
    rcases Nat.eq_zero_or_pos (nunique Event.email (filterPost post_id delivers))
      with h | h
    · simp [h]
    · simp [h, Nat.pos_iff_ne_zero.mp h]
  · intro h
    have hv : (calculate_open_rate opens delivers post_id).value = 0 := by
      show (if 0 < nunique Event.email (filterPost post_id delivers) then _ else _)
        = (0 : ℚ)
      simp [h]
    refine ⟨hv, ?_⟩
    show rate_open_rate (if 0 < nunique Event.email (filterPost post_id delivers)
        then _ else _) = "Poor"
    rw [h]
    norm_num [rate_open_rate]

/-- Concrete instance of `calculate_open_rate_spec`: one open event and an
empty delivers table give rate `0`, rating `"Poor"`. -/
theorem calculate_open_rate_spec_witness :
    nunique Event.email (filterPost none ([] : List Event)) = 0
    ∧ (calculate_open_rate [⟨"a", 1, 0⟩] [] none).value = 0
    ∧ (calculate_open_rate [⟨"a", 1, 0⟩] [] none).rating = "Poor" := by
  have h := calculate_open_rate_spec [⟨"a", 1, 0⟩] [] none
  have h0 : nunique Event.email (filterPost none ([] : List Event)) = 0 := by decide
  exact ⟨h0, (h.2.2.2 h0).1, (h.2.2.2 h0).2⟩

/-- C10: `calculate_open_rate` with `post_id = 0` performs no filtering
(Python truthiness treats `0` like an absent argument), returning the
overall rate; for any nonzero `post_id` both tables are filtered to that
post before counting distinct emails. -/
theorem calculate_open_rate_post_id_zero :
    (∀ opens delivers : List Event,
        calculate_open_rate opens delivers (some 0)
          = calculate_open_rate opens delivers none)
    ∧ (∀ (opens delivers : List Event) (p : Int), p ≠ 0 →
        calculate_open_rate opens delivers (some p)
          = calculate_open_rate (opens.filter (fun e => e.post_id == p))
              (delivers.filter (fun e => e.post_id == p)) none) := by
  constructor
  · intro opens delivers
    simp [calculate_open_rate, filterPost]
  · intro opens delivers p hp
    simp [calculate_open_rate, filterPost, hp]

/-- Concrete instance of `calculate_open_rate_post_id_zero`: with a nonzero
post id the computation agrees with pre-filtered tables, and post id `0`
agrees with no filtering. -/
theorem calculate_open_rate_post_id_zero_witness :
    (1 : Int) ≠ 0
    ∧ calculate_open_rate [⟨"a", 1, 0⟩, ⟨"b", 2, 0⟩] [⟨"a", 1, 0⟩] (some 1)
        = calculate_open_rate [⟨"a", 1, 0⟩] [⟨"a", 1, 0⟩] none := by
  refine ⟨by decide, ?_⟩
  have h := calculate_open_rate_post_id_zero.2
    [⟨"a", 1, 0⟩, ⟨"b", 2, 0⟩] [⟨"a", 1, 0⟩] 1 (by decide)
  rw [h]
  rfl

/-- Result record of `metrics.calculate_list_growth_rate` (presentational
fields and the unused `email_disabled_total`/`net_growth` duplicates of
`new_subscribers` omitted). -/
structure GrowthResult where
  value : ℚ
  subscribers_at_start : Nat
  new_subscribers : Nat
  rating : String
deriving DecidableEq, Repr

/-- `metrics.calculate_list_growth_rate` (metrics.py lines 142-178).
The reference instant is the dataset maximum of `created_at` (pandas
`.max()`), not the wall clock.  On an empty table pandas returns `NaT` and
every comparison against `NaT` is false, so both counts are `0` and the
guarded rate is `0`; that is the `none` branch. -/
def calculate_list_growth_rate (subscribers : List Subscriber) (months : Nat) :
    GrowthResult :=
  match (subscribers.map Subscriber.created_at).max? with
  | none => ⟨0, 0, 0, rate_growth 0⟩
  | some now =>
    let period_start := now - (months : Int) * 30 * day
    let subscribers_at_start :=
      (subscribers.filter (fun s => decide (s.created_at ≤ period_start))).length
    let new_during_period :=
      (subscribers.filter (fun s =>
        decide (period_start < s.created_at ∧ s.created_at ≤ now))).length
    let rate : ℚ :=
      if subscribers_at_start > 0
      then (new_during_period : ℚ) / (subscribers_at_start : ℚ) else 0
    ⟨rate, subscribers_at_start, new_during_period, rate_growth rate⟩

/-- C7: on a non-empty subscribers table, the growth computation uses
`now` = the maximum `created_at` in the dataset, counts
`subscribersAtStart` = rows with `created_at ≤ now - months*30 days`,
`newSubscribers` = rows with `created_at` in the half-open interval
`(now - months*30 days, now]`, and returns
`rate = newSubscribers / subscribersAtStart`, guarded to `0` (never
infinity) when `subscribersAtStart = 0`. -/
theorem calculate_list_growth_rate_spec (subscribers : List Subscriber)
    (months : Nat) (hne : subscribers ≠ []) :
    ∃ now : Int,
      (subscribers.map Subscriber.created_at).max? = some now
      ∧ now ∈ subscribers.map Subscriber.created_at
      ∧ (∀ s ∈ subscribers, s.created_at ≤ now)
      ∧ (calculate_list_growth_rate subscribers months).subscribers_at_start
          = (subscribers.filter (fun s =>
              decide (s.created_at ≤ now - (months : Int) * 30 * day))).length
      ∧ (calculate_list_growth_rate subscribers months).new_subscribers
          = (subscribers.filter (fun s =>
              decide (now - (months : Int) * 30 * day < s.created_at
                ∧ s.created_at ≤ now))).length
      ∧ (calculate_list_growth_rate subscribers months).value
          = (if (calculate_list_growth_rate subscribers months).subscribers_at_start
                = 0
             then 0
             else ((calculate_list_growth_rate subscribers months).new_subscribers : ℚ)
                / ((calculate_list_growth_rate subscribers months).subscribers_at_start
                    : ℚ)) := by
  obtain ⟨now, hmax⟩ : ∃ now, (subscribers.map Subscriber.created_at).max? = some now := by
    cases h : (subscribers.map Subscriber.created_at).max? with
    | none =>
      rw [List.max?_eq_none_iff, List.map_eq_nil_iff] at h
      exact absurd h hne
    | some a => exact ⟨a, rfl⟩
  have anti : Std.Antisymm (fun x1 x2 : Int => x1 ≤ x2) :=
    ⟨fun h1 h2 => le_antisymm h1 h2⟩
  have hspec := (@List.max?_eq_some_iff Int now _ _ anti (fun _ => le_refl _)
    (fun _ _ => max_choice _ _) (fun _ _ _ => max_le_iff)
    (subscribers.map Subscriber.created_at)).mp hmax
  refine ⟨now, hmax, hspec.1, fun s hs => hspec.2 _ (List.mem_map_of_mem _ hs), ?_⟩
  unfold calculate_list_growth_rate
  rw [hmax]
  refine ⟨rfl, rfl, ?_⟩
  rcases Nat.eq_zero_or_pos ((subscribers.filter (fun s =>
      decide (s.created_at ≤ now - (months : Int) * 30 * day))).length) with h | h
  · simp [h]
  · simp [h, Nat.pos_iff_ne_zero.mp h]

/-- Table for the Example-5 instance of `calculate_list_growth_rate_spec`:
both subscribers signed up inside the 1-month window. -/
def growthW : List Subscriber :=
  [⟨"a", 0, none, none, false, false⟩, ⟨"b", 10 * day, none, none, false, false⟩]

/-- Concrete instance of `calculate_list_growth_rate_spec`:
`subscribersAtStart = 0` and the returned rate is the guarded `0`. -/
theorem calculate_list_growth_rate_spec_witness :
    growthW ≠ []
    ∧ (calculate_list_growth_rate growthW 1).subscribers_at_start = 0
    ∧ (calculate_list_growth_rate growthW 1).new_subscribers = 2
    ∧ (calculate_list_growth_rate growthW 1).value = 0 := by
  obtain ⟨now, -, -, -, -, -, hv⟩ :=
    calculate_list_growth_rate_spec growthW 1 (by decide)
  have h0 : (calculate_list_growth_rate growthW 1).subscribers_at_start = 0 := by
    decide
  exact ⟨by decide, h0, by decide, by rw [hv, if_pos h0]⟩

/-- Result record of `metrics.calculate_paid_churn` (presentational fields
omitted). -/
structure ChurnResult where
  value : ℚ
  total_ever_paid : Nat
  churned : Nat
  retained : Nat
  rating : String
deriving DecidableEq, Repr

/-- The pandas comparison `expiry < now` of `metrics.py` line 192: false
when `expiry` is missing (`NaT`). -/
def expiryBefore (s : Subscriber) (now : Int) : Bool :=
  match s.expiry with
  | some t => decide (t < now)
  | none => false

/-- `metrics.calculate_paid_churn` (metrics.py lines 181-209).  The source
reads the wall clock inside the function body
(`now = pd.Timestamp.now(tz='UTC')`, line 188); that hidden input is made
explicit here as the parameter `now`. -/
def calculate_paid_churn (subscribers : List Subscriber) (now : Int) :
    ChurnResult :=
  let paid_ever := subscribers.filter Subscriber.is_paid
  let churned := paid_ever.filter (fun s =>
    !s.active_subscription && s.expiry.isSome && expiryBefore s now)
  let total_paid := paid_ever.length
  let total_churned := churned.length
  let churn_rate : ℚ :=
    if total_paid > 0 then (total_churned : ℚ) / (total_paid : ℚ) else 0
  ⟨churn_rate, total_paid, total_churned, total_paid - total_churned,
    rate_churn churn_rate⟩

/-- The 30-day active-subscriber ratio computed inside
`analytics.analyze_engagement_trends` (analytics.py lines 242-245).  The
source reads the wall clock (`pd.Timestamp.now(tz='UTC')`, line 242); that
hidden input is made explicit here as the parameter `now`. -/
def active_ratio_30d (opens : List Event) (subscribers : List Subscriber)
    (now : Int) : ℚ :=
  let recent_openers := nunique Event.email
    (opens.filter (fun o => decide (now - 30 * day ≤ o.timestamp)))
  let total_subs := subscribers.length
  if total_subs > 0 then (recent_openers : ℚ) / (total_subs : ℚ) else 0

/-- C9 counterexample: `calculate_paid_churn` reads the wall clock inside
the function, so the same immutable subscribers table yields different
results at different invocation instants — a lapsed paid subscriber whose
`expiry` is day 10 is not churned when the clock reads day 5 but churned
when it reads day 20. -/
theorem paid_churn_not_clock_independent :
    calculate_paid_churn [⟨"a", 0, some 0, some (10 * day), false, false⟩]
        (5 * day)
      ≠ calculate_paid_churn [⟨"a", 0, some 0, some (10 * day), false, false⟩]
        (20 * day) := by
  intro h
  have h5 : (calculate_paid_churn
      [⟨"a", 0, some 0, some (10 * day), false, false⟩] (5 * day)).churned = 0 := by
    decide
  have h20 : (calculate_paid_churn
      [⟨"a", 0, some 0, some (10 * day), false, false⟩] (20 * day)).churned = 1 := by
    decide
  rw [h] at h5
  rw [h20] at h5
  exact absurd h5 (by decide)

/-- C9 amended: every embedded engine function is a pure function of its
input tables and the clock instant read during the call; the clock enters
`calculate_paid_churn` only through the comparison `expiry < now` and the
trend engine's 30-day active ratio only through
`timestamp ≥ now - 30 days`, so two invocations whose clock reads classify
every such timestamp identically return identical results. -/
theorem engine_clock_dependence_bound (subscribers : List Subscriber)
    (opens : List Event) (now₁ now₂ : Int)
    (hc : ∀ s ∈ subscribers, expiryBefore s now₁ = expiryBefore s now₂)
    (ho : ∀ o ∈ opens,
      decide (now₁ - 30 * day ≤ o.timestamp)
        = decide (now₂ - 30 * day ≤ o.timestamp)) :
    calculate_paid_churn subscribers now₁ = calculate_paid_churn subscribers now₂
    ∧ active_ratio_30d opens subscribers now₁
        = active_ratio_30d opens subscribers now₂ := by
  constructor
  · simp only [calculate_paid_churn]
    have hfilter :
        (subscribers.filter Subscriber.is_paid).filter (fun s =>
            !s.active_subscription && s.expiry.isSome && expiryBefore s now₁)
          = (subscribers.filter Subscriber.is_paid).filter (fun s =>
            !s.active_subscription && s.expiry.isSome && expiryBefore s now₂) := by
      apply List.filter_congr
      intro s hs
      rw [hc s (List.mem_of_mem_filter hs)]
    rw [hfilter]
  · simp only [active_ratio_30d]
    have hfilter :
        opens.filter (fun o => decide (now₁ - 30 * day ≤ o.timestamp))
          = opens.filter (fun o => decide (now₂ - 30 * day ≤ o.timestamp)) := by
      apply List.filter_congr
      intro o hombre
      rw [ho o hombre]
    rw [hfilter]

/-- Concrete instance of `engine_clock_dependence_bound`: two clock instants
one day apart that classify the single expiry and the single open timestamp
identically give identical churn results and active ratios. -/
theorem engine_clock_dependence_bound_witness :
    (∀ s ∈ [(⟨"a", 0, some 0, some (100 * day), false, false⟩ : Subscriber)],
      expiryBefore s 0 = expiryBefore s day)
    ∧ calculate_paid_churn
        [(⟨"a", 0, some 0, some (100 * day), false, false⟩ : Subscriber)] 0
      = calculate_paid_churn
        [(⟨"a", 0, some 0, some (100 * day), false, false⟩ : Subscriber)] day
    ∧ active_ratio_30d [(⟨"a", 1, 50 * day⟩ : Event)]
        [(⟨"a", 0, some 0, some (100 * day), false, false⟩ : Subscriber)] 0
      = active_ratio_30d [(⟨"a", 1, 50 * day⟩ : Event)]
        [(⟨"a", 0, some 0, some (100 * day), false, false⟩ : Subscriber)] day := by
  have h := engine_clock_dependence_bound
    [(⟨"a", 0, some 0, some (100 * day), false, false⟩ : Subscriber)]
    [(⟨"a", 1, 50 * day⟩ : Event)] 0 day (by decide) (by decide)
  exact ⟨by decide, h.1, h.2⟩

/-- Helper: two lists with the same members have deduplications of the same
length. -/
theorem dedup_length_eq_of_mem_iff {α : Type} [DecidableEq α] {l₁ l₂ : List α}
    (h : ∀ a, a ∈ l₁ ↔ a ∈ l₂) : l₁.dedup.length = l₂.dedup.length := by
  rw [← List.card_toFinset, ← List.card_toFinset]
  congr 1
  ext a
  simp only [List.mem_toFinset]
  exact h a

/-- The per-subscriber in-window open collection of
`analytics.analyze_post_conversions` (analytics.py lines 42-54): the distinct
`post_id`s this subscriber opened with `timestamp` in
`[first_payment_at - 7 days, first_payment_at]`, both endpoints included
(`>= window_start` and `<= conversion_date` in the source); empty when
`first_payment_at` is missing (the `pd.isna` skip). -/
def windowPosts (opens : List Event) (s : Subscriber) : List Int :=
  match s.first_payment_at with
  | none => []
  | some fp =>
    ((opens.filter (fun o =>
        o.email == s.email
          && decide (fp - 7 * day ≤ o.timestamp)
          && decide (o.timestamp ≤ fp))).map Event.post_id).dedup

/-- The `conversion_attribution` row list built by
`analytics.analyze_post_conversions` (lines 36-59), restricted to its
`email` and `post_id` columns (the `conversion_date` column is only carried
along for display). -/
def conversionAttribution (subscribers : List Subscriber) (opens : List Event) :
    List (String × Int) :=
  (subscribers.filter Subscriber.is_paid).flatMap (fun s =>
    (windowPosts opens s).map (fun p => (s.email, p)))

/-- The `conversions` count of `analytics.analyze_post_conversions`
(lines 70-72): `groupby('post_id').agg(conversions=('email', 'nunique'))` —
the number of distinct emails attributing to post `p`. -/
def conversions (subscribers : List Subscriber) (opens : List Event)
    (p : Int) : Nat :=
  nunique Prod.fst
    ((conversionAttribution subscribers opens).filter (fun r => r.2 == p))

/-- Modelled from the spec's words (§4.3), for comparison against the source
pipeline: subscriber `s` is credited to post `p` when `s` is paid with a
non-null conversion date `fp` and opened `p` at least once with timestamp in
the closed interval `[fp - 7 days, fp]`. -/
def specCredited (opens : List Event) (p : Int) (s : Subscriber) : Bool :=
  s.is_paid &&
    match s.first_payment_at with
    | none => false
    | some fp => opens.any (fun o =>
        o.email == s.email && o.post_id == p
          && decide (fp - 7 * day ≤ o.timestamp) && decide (o.timestamp ≤ fp))

/-- Membership in the per-subscriber in-window post collection. -/
theorem mem_windowPosts_iff (opens : List Event) (s : Subscriber) (p : Int) :
    p ∈ windowPosts opens s
      ↔ ∃ fp, s.first_payment_at = some fp
          ∧ ∃ o ∈ opens, o.email = s.email ∧ o.post_id = p
              ∧ fp - 7 * day ≤ o.timestamp ∧ o.timestamp ≤ fp := by
  cases hfp : s.first_payment_at with
  | none => simp [windowPosts, hfp]
  | some fp =>
    simp only [windowPosts, hfp, List.mem_dedup, List.mem_map, List.mem_filter,
      Bool.and_eq_true, beq_iff_eq, decide_eq_true_eq, Option.some.injEq]
    constructor
    · rintro ⟨o, ⟨ho, ⟨he, h1⟩, h2⟩, hp⟩
      exact ⟨fp, rfl, o, ho, he, hp, h1, h2⟩
    · rintro ⟨fp', hfp', o, ho, he, hp, h1, h2⟩
      cases hfp'
      exact ⟨o, ⟨ho, ⟨he, h1⟩, h2⟩, hp⟩

/-- Unfolding of `specCredited`. -/
theorem specCredited_iff (opens : List Event) (p : Int) (s : Subscriber) :
    specCredited opens p s = true
      ↔ s.is_paid = true
        ∧ ∃ fp, s.first_payment_at = some fp
            ∧ ∃ o ∈ opens, o.email = s.email ∧ o.post_id = p
                ∧ fp - 7 * day ≤ o.timestamp ∧ o.timestamp ≤ fp := by
  cases hfp : s.first_payment_at with
  | none => simp [specCredited, hfp]
  | some fp =>
    simp only [specCredited, hfp, Bool.and_eq_true, List.any_eq_true,
      beq_iff_eq, decide_eq_true_eq, Option.some.injEq]
    constructor
    · rintro ⟨hpaid, o, ho, ⟨⟨he, hp⟩, h1⟩, h2⟩
      exact ⟨hpaid, fp, rfl, o, ho, he, hp, h1, h2⟩
    · rintro ⟨hpaid, fp', hfp', o, ho, he, hp, h1, h2⟩
      cases hfp'
      exact ⟨hpaid, o, ho, ⟨⟨he, hp⟩, h1⟩, h2⟩

/-- C2: in conversion attribution, a paid subscriber with a non-null
`first_payment_at = fp` is credited to post `p` exactly when one of their
opens of `p` falls in the closed interval `[fp - 7 days, fp]`, and each
(subscriber, post) pair contributes at most `1` to `p`'s conversions count
however many in-window opens it has: the `conversions` count computed by the
source pipeline equals the number of distinct emails of spec-credited
subscribers. -/
theorem mem_conversionAttribution_iff (subscribers : List Subscriber)
    (opens : List Event) (r : String × Int) :
    r ∈ conversionAttribution subscribers opens
      ↔ ∃ s ∈ subscribers, s.is_paid = true ∧ s.email = r.1
          ∧ r.2 ∈ windowPosts opens s := by
  unfold conversionAttribution
  simp only [List.mem_flatMap, List.mem_filter, List.mem_map]
  constructor
  · rintro ⟨s, ⟨hs, hpaid⟩, q, hq, rfl⟩
    exact ⟨s, hs, hpaid, rfl, hq⟩
  · rintro ⟨s, hs, hpaid, h1, h2⟩
    obtain ⟨r1, r2⟩ := r
    simp only at h1 h2
    exact ⟨s, ⟨hs, hpaid⟩, r2, h2, by rw [h1]⟩

/-- C2: in conversion attribution, a paid subscriber with a non-null
`first_payment_at = fp` is credited to post `p` exactly when one of their
opens of `p` falls in the closed interval `[fp - 7 days, fp]`, and each
(subscriber, post) pair contributes at most `1` to `p`'s conversions count
however many in-window opens it has: the `conversions` count computed by the
source pipeline equals the number of distinct emails of spec-credited
subscribers. -/
theorem conversions_eq_distinct_credited_emails (subscribers : List Subscriber)
    (opens : List Event) (p : Int) :
    conversions subscribers opens p
      = nunique Subscriber.email (subscribers.filter (specCredited opens p)) := by
  unfold conversions nunique
  apply dedup_length_eq_of_mem_iff
  intro e
  constructor
  · intro h
    rw [List.mem_map] at h
    obtain ⟨r, hr, rfl⟩ := h
    rw [List.mem_filter] at hr
    obtain ⟨hra, hrp⟩ := hr
    rw [mem_conversionAttribution_iff] at hra
    obtain ⟨s, hs, hpaid, he, hq⟩ := hra
    have hp : r.2 = p := by simpa using hrp
    rw [List.mem_map]
    refine ⟨s, ?_, he⟩
    rw [List.mem_filter]
    refine ⟨hs, ?_⟩
    rw [specCredited_iff]
    rw [hp] at hq
    obtain ⟨fp, hfp, o, ho, hoe, hop, h1, h2⟩ :=
      (mem_windowPosts_iff opens s p).mp hq
    exact ⟨hpaid, fp, hfp, o, ho, hoe, hop, h1, h2⟩
  · intro h
    rw [List.mem_map] at h
    obtain ⟨s, hs, rfl⟩ := h
    rw [List.mem_filter] at hs
    obtain ⟨hs, hcred⟩ := hs
    obtain ⟨hpaid, fp, hfp, o, ho, hoe, hop, h1, h2⟩ :=
      (specCredited_iff opens p s).mp hcred
    rw [List.mem_map]
    refine ⟨(s.email, p), ?_, rfl⟩
    rw [List.mem_filter]
    refine ⟨?_, by simp⟩
    rw [mem_conversionAttribution_iff]
    exact ⟨s, hs, hpaid, rfl,
      (mem_windowPosts_iff opens s p).mpr ⟨fp, hfp, o, ho, hoe, hop, h1, h2⟩⟩

/-- A pandas float value as produced by the rate columns below: finite,
positive infinity, or `NaN`.  Only the cases reachable from
nonnegative-count divisions are modelled. -/
inductive PdFloat where
  | val (q : ℚ)
  | posInf
  | nan
deriving DecidableEq, Repr

/-- Pandas/NumPy float division of nonnegative values: `0/0` is `NaN`,
`a/0` with `a > 0` is `inf`, otherwise the exact quotient. -/
def pdDiv (a b : ℚ) : PdFloat :=
  if b = 0 then (if a = 0 then PdFloat.nan else PdFloat.posInf)
  else PdFloat.val (a / b)

/-- `Series.fillna(0)` on a float value: replaces `NaN` — and only `NaN`,
not `inf`. -/
def PdFloat.fillna0 : PdFloat → PdFloat
  | .nan => .val 0
  | x => x

/-- IEEE comparison `x >= q` of a pandas float against a finite threshold
(`NaN` compares false). -/
def PdFloat.geQ : PdFloat → ℚ → Bool
  | .val a, q => decide (q ≤ a)
  | .posInf, _ => true
  | .nan, _ => false

/-- IEEE comparison `x < q` of a pandas float against a finite threshold
(`NaN` compares false). -/
def PdFloat.ltQ : PdFloat → ℚ → Bool
  | .val a, q => decide (a < q)
  | .posInf, _ => false
  | .nan, _ => false

/-- `identify_super_engagers` per-subscriber distinct posts opened
(analytics.py lines 271-272): `groupby('email')['post_id'].nunique()`.  An
email with no opens row gets the outer merge's `fillna(0)` count, which is
this definition's value `0`. -/
def postsOpened (opens : List Event) (e : String) : Nat :=
  nunique Event.post_id (opens.filter (fun o => o.email == e))

/-- Per-subscriber distinct posts delivered (analytics.py lines 274-275). -/
def postsDelivered (delivers : List Event) (e : String) : Nat :=
  nunique Event.post_id (delivers.filter (fun o => o.email == e))

/-- The per-subscriber `open_rate` column (analytics.py lines 278-281):
float division `posts_opened / posts_delivered` followed by `fillna(0)`. -/
def subOpenRate (opens delivers : List Event) (e : String) : PdFloat :=
  (pdDiv (postsOpened opens e : ℚ) (postsDelivered delivers e : ℚ)).fillna0

/-- The minimum-sample eligibility filter `posts_delivered >= 5`
(analytics.py line 283). -/
def engagedEligible (delivers : List Event) (e : String) : Bool :=
  decide (5 ≤ postsDelivered delivers e)

/-- `super_engagers` membership (analytics.py line 286): eligible with
`open_rate >= 0.8`. -/
def superEngager (opens delivers : List Event) (e : String) : Bool :=
  engagedEligible delivers e && (subOpenRate opens delivers e).geQ (8/10)

/-- `at_risk` membership (analytics.py line 289): eligible with
`open_rate < 0.2`. -/
def atRisk (opens delivers : List Event) (e : String) : Bool :=
  engagedEligible delivers e && (subOpenRate opens delivers e).ltQ (2/10)

/-- The spec's remainder tier "average": eligible and neither a super
engager nor at risk (the source keeps these rows in `engaged` without a
flag). -/
def averageTier (opens delivers : List Event) (e : String) : Bool :=
  engagedEligible delivers e
    && !(subOpenRate opens delivers e).geQ (8/10)
    && !(subOpenRate opens delivers e).ltQ (2/10)

/-- C3: every subscriber with at least 5 distinct posts delivered lies in
exactly one of the tiers super engager (`openRate ≥ 0.8`), at risk
(`openRate < 0.2`), average (the remainder); every subscriber with fewer
than 5 distinct posts delivered is in none of the three tiers. -/
theorem engagement_tier_trichotomy (opens delivers : List Event) (e : String) :
    (5 ≤ postsDelivered delivers e →
      (superEngager opens delivers e = true ∧ atRisk opens delivers e = false
          ∧ averageTier opens delivers e = false)
      ∨ (superEngager opens delivers e = false ∧ atRisk opens delivers e = true
          ∧ averageTier opens delivers e = false)
      ∨ (superEngager opens delivers e = false ∧ atRisk opens delivers e = false
          ∧ averageTier opens delivers e = true))
    ∧ (postsDelivered delivers e < 5 →
        superEngager opens delivers e = false ∧ atRisk opens delivers e = false
          ∧ averageTier opens delivers e = false) := by
  constructor
  · intro h5
    have hel : engagedEligible delivers e = true := by
      simp only [engagedEligible, decide_eq_true_eq]
      exact h5
    have hb : (postsDelivered delivers e : ℚ) ≠ 0 := by
      have : postsDelivered delivers e ≠ 0 := by omega
      exact_mod_cast this
    have hr : subOpenRate opens delivers e
        = PdFloat.val ((postsOpened opens e : ℚ) / (postsDelivered delivers e : ℚ)) := by
      unfold subOpenRate pdDiv
      rw [if_neg hb]
      rfl
    unfold superEngager atRisk averageTier
    rw [hr, hel]
    simp only [PdFloat.geQ, PdFloat.ltQ, Bool.true_and]
    by_cases hge : (8/10 : ℚ) ≤ (postsOpened opens e : ℚ) / (postsDelivered delivers e : ℚ)
    · left
      have hnlt : ¬ ((postsOpened opens e : ℚ) / (postsDelivered delivers e : ℚ) < 2/10) := by
        intro hlt
        linarith
      simp [hge, hnlt]
    · by_cases hlt : (postsOpened opens e : ℚ) / (postsDelivered delivers e : ℚ) < 2/10
      · right; left; simp [hge, hlt]
      · right; right; simp [hge, hlt]
  · intro h5
    have hel : engagedEligible delivers e = false := by
      simp only [engagedEligible, decide_eq_false_iff_not]
      omega
    simp [superEngager, atRisk, averageTier, hel]

/-- Opens table for the concrete instance of `engagement_tier_trichotomy`:
subscriber "a" opened all five delivered posts. -/
def tierOpensW : List Event :=
  [⟨"a", 1, 0⟩, ⟨"a", 2, 0⟩, ⟨"a", 3, 0⟩, ⟨"a", 4, 0⟩, ⟨"a", 5, 0⟩]

/-- Delivers table for the concrete instance of
`engagement_tier_trichotomy`. -/
def tierDeliversW : List Event :=
  [⟨"a", 1, 0⟩, ⟨"a", 2, 0⟩, ⟨"a", 3, 0⟩, ⟨"a", 4, 0⟩, ⟨"a", 5, 0⟩]

/-- Concrete instance of `engagement_tier_trichotomy`: subscriber "a" has
exactly 5 distinct posts delivered and lies in exactly one tier. -/
theorem engagement_tier_trichotomy_witness :
    5 ≤ postsDelivered tierDeliversW "a"
    ∧ ((superEngager tierOpensW tierDeliversW "a" = true
          ∧ atRisk tierOpensW tierDeliversW "a" = false
          ∧ averageTier tierOpensW tierDeliversW "a" = false)
      ∨ (superEngager tierOpensW tierDeliversW "a" = false
          ∧ atRisk tierOpensW tierDeliversW "a" = true
          ∧ averageTier tierOpensW tierDeliversW "a" = false)
      ∨ (superEngager tierOpensW tierDeliversW "a" = false
          ∧ atRisk tierOpensW tierDeliversW "a" = false
          ∧ averageTier tierOpensW tierDeliversW "a" = true)) :=
  ⟨by decide, (engagement_tier_trichotomy tierOpensW tierDeliversW "a").1 (by decide)⟩

/-- One row of the `subscriber_details` table
(`data_loader.load_subscriber_details`), restricted to the columns read by
the list-cleaning categorization in `app.render_inactive_subscribers`.
`is_paid` is the boolean column derived by the loader (data_loader.py
line 164) from the `subscriber_type` string.  Nullable columns are
`Option`s. -/
structure SubscriberDetail where
  email : String
  emails_received_6mo : Option Nat
  emails_opened_6mo : Nat
  total_emails_opened : Nat
  last_email_open : Option Int
  start_date : Option Int
  links_clicked : Nat
  post_views : Nat
  comments : Nat
  shares : Nat
  is_paid : Bool
deriving DecidableEq, Repr

/-- Loader-derived `open_rate_6mo` column (data_loader.py line 171):
`emails_opened_6mo / emails_received_6mo` followed by `fillna(0)`; division
by a missing count gives `NaN`, filled to `0`. -/
def SubscriberDetail.open_rate_6mo (d : SubscriberDetail) : PdFloat :=
  match d.emails_received_6mo with
  | none => PdFloat.val 0
  | some r => (pdDiv (d.emails_opened_6mo : ℚ) (r : ℚ)).fillna0

/-- `days_since_last_open` (app.py line 1624): whole days between `now` and
the last email open; `NaT` propagates as `none`, and every pandas
comparison against it is false. -/
def days_since_last_open (now : Int) (d : SubscriberDetail) : Option Int :=
  d.last_email_open.map (fun t => (now - t).fdiv day)

/-- `is_new_subscriber` (app.py lines 1627-1634): signed up at most 30 days
before `now`; false when `start_date` is missing. -/
def is_new_subscriber (now : Int) (d : SubscriberDetail) : Bool :=
  match d.start_date with
  | some sd => decide ((now - sd).fdiv day ≤ 30)
  | none => false

/-- The `sufficient_emails` gate (app.py lines 1636-1638): strictly more
than `MIN_EMAILS = 8` emails received in the last 6 months; a missing count
compares false. -/
def sufficient_emails (d : SubscriberDetail) : Bool :=
  match d.emails_received_6mo with
  | some n => decide (8 < n)
  | none => false

/-- Pandas `> bound` on an optional day count (`NaN` compares false). -/
def optGt (x : Option Int) (bound : Int) : Bool :=
  match x with
  | some v => decide (bound < v)
  | none => false

/-- The `never_opened` category flag (app.py lines 1648-1652). -/
def never_opened (now : Int) (d : SubscriberDetail) : Bool :=
  sufficient_emails d && d.total_emails_opened == 0 && !is_new_subscriber now d

/-- The `inactive` (lapsed) category flag (app.py lines 1656-1665). -/
def inactive (now : Int) (d : SubscriberDetail) : Bool :=
  sufficient_emails d && decide (0 < d.total_emails_opened)
    && optGt (days_since_last_open now d) 30
    && d.links_clicked == 0 && d.shares == 0 && d.comments == 0
    && !is_new_subscriber now d && !d.is_paid

/-- The `reengagement_candidate` category flag (app.py lines 1669-1676). -/
def reengagement_candidate (now : Int) (d : SubscriberDetail) : Bool :=
  sufficient_emails d && decide (0 < d.total_emails_opened)
    && (d.open_rate_6mo).geQ (3/10)
    && optGt (days_since_last_open now d) 30
    && !is_new_subscriber now d && !d.is_paid

/-- The never-opened removal list filter of app.py line 1796:
`details[details['never_opened'] & (~details['is_paid'])]` — the rows the
page recommends for removal under "Never Opened". -/
def never_opened_removal (now : Int) (d : SubscriberDetail) : Bool :=
  never_opened now d && !d.is_paid

/-- C4: a subscriber-detail row with exactly 8 emails received in 6 months
falls in none of the three list-cleaning categories, whatever its other
fields: the sufficient-emails gate is the strict comparison
`emails_received_6mo > 8`. -/
theorem min_emails_gate_is_strict (now : Int) (d : SubscriberDetail)
    (h : d.emails_received_6mo = some 8) :
    never_opened now d = false ∧ inactive now d = false
      ∧ reengagement_candidate now d = false := by
  have hs : sufficient_emails d = false := by
    simp [sufficient_emails, h]
  simp [never_opened, inactive, reengagement_candidate, hs]

/-- A subscriber-detail row with exactly 8 emails received that would
otherwise qualify for every category. -/
def boundaryW : SubscriberDetail :=
  ⟨"x", some 8, 8, 0, none, none, 0, 0, 0, 0, false⟩

/-- Concrete instance of `min_emails_gate_is_strict` at the boundary row. -/
theorem min_emails_gate_is_strict_witness :
    boundaryW.emails_received_6mo = some 8
    ∧ never_opened 0 boundaryW = false ∧ inactive 0 boundaryW = false
    ∧ reengagement_candidate 0 boundaryW = false :=
  ⟨rfl, (min_emails_gate_is_strict 0 boundaryW rfl).1,
    (min_emails_gate_is_strict 0 boundaryW rfl).2.1,
    (min_emails_gate_is_strict 0 boundaryW rfl).2.2⟩

/-- C5: a paid subscriber-detail row is a member of none of the three
removal categories — the never-opened removal list (which filters
`~is_paid` at app.py line 1796), the inactive flag, and the re-engagement
flag (both of which conjoin `~is_paid`): paid subscribers are never
recommended for removal. -/
theorem paid_never_recommended_for_removal (now : Int) (d : SubscriberDetail)
    (h : d.is_paid = true) :
    never_opened_removal now d = false ∧ inactive now d = false
      ∧ reengagement_candidate now d = false := by
  simp [never_opened_removal, inactive, reengagement_candidate, h]

/-- A paid subscriber-detail row that would otherwise qualify for every
removal category. -/
def paidW : SubscriberDetail :=
  ⟨"y", some 40, 0, 0, some 0, some (-200 * day), 0, 0, 0, 0, true⟩

/-- Concrete instance of `paid_never_recommended_for_removal`: a lapsed paid
subscriber appears in no removal category. -/
theorem paid_never_recommended_for_removal_witness :
    paidW.is_paid = true
    ∧ never_opened_removal (100 * day) paidW = false
    ∧ inactive (100 * day) paidW = false
    ∧ reengagement_candidate (100 * day) paidW = false :=
  ⟨rfl, (paid_never_recommended_for_removal (100 * day) paidW rfl).1,
    (paid_never_recommended_for_removal (100 * day) paidW rfl).2.1,
    (paid_never_recommended_for_removal (100 * day) paidW rfl).2.2⟩

/-- The month index of the `monthly_engagement` DataFrame built by
`analytics.analyze_engagement_trends` (analytics.py lines 222-231): the
union of the calendar months appearing in either table (pandas aligns the
two grouped series on the union of their `PeriodIndex`es).  The month key
map `m` is the abstract embedding of `timestamp.dt.to_period('M')`: the
computation depends on it only as a bucketing of timestamps. -/
def monthlyMonths (m : Int → Int) (opens delivers : List Event) : List Int :=
  ((opens.map (fun o => m o.timestamp))
    ++ (delivers.map (fun o => m o.timestamp))).dedup

/-- The `opens` column (analytics.py line 225, plus the alignment
`fillna(0)` of lines 228-231): distinct emails with at least one open event
in month `k`; `0` for a month with no opens rows. -/
def monthlyOpens (m : Int → Int) (opens : List Event) (k : Int) : Nat :=
  nunique Event.email (opens.filter (fun o => m o.timestamp == k))

/-- The `delivers` column (analytics.py line 226, plus the alignment
`fillna(0)`). -/
def monthlyDelivers (m : Int → Int) (delivers : List Event) (k : Int) : Nat :=
  nunique Event.email (delivers.filter (fun o => m o.timestamp == k))

/-- The `open_rate` column (analytics.py lines 233-235): float division of
the aligned count columns followed by `.fillna(0)` — which replaces only the
`NaN` of a `0/0` month, not the `inf` of an `n/0` month with `n > 0`. -/
def monthlyOpenRate (m : Int → Int) (opens delivers : List Event)
    (k : Int) : PdFloat :=
  (pdDiv (monthlyOpens m opens k : ℚ) (monthlyDelivers m delivers k : ℚ)).fillna0

/-- Concrete month key for the divergence instance: any key map sending the
two timestamps below to different calendar months behaves identically. -/
def monthKeyB : Int → Int := fun t => t.fdiv 50

/-- Opens table for the divergence instance: one open in month `0`. -/
def opensB : List Event := [⟨"a", 1, 0⟩]

/-- Delivers table for the divergence instance: one delivery in month `2`,
none in month `0`. -/
def deliversB : List Event := [⟨"b", 1, 100⟩]

/-- C6: the alignment half of the claim holds — a month present in only one
table still appears, with the missing side's count filled to `0` — but the
zero-delivers guard does not: for a month with at least one distinct opening
email and zero delivering emails, the `open_rate` column is `+inf`
(float `n/0`), not the `0` the specification requires, because `fillna(0)`
replaces only `NaN`.  Evaluated at a concrete failing input. -/
theorem monthly_open_rate_inf_divergence :
    monthlyMonths monthKeyB opensB deliversB = [0, 2]
    ∧ monthlyOpens monthKeyB opensB 2 = 0
    ∧ monthlyDelivers monthKeyB deliversB 2 = 1
    ∧ monthlyOpenRate monthKeyB opensB deliversB 2 = PdFloat.val 0
    ∧ monthlyOpens monthKeyB opensB 0 = 1
    ∧ monthlyDelivers monthKeyB deliversB 0 = 0
    ∧ monthlyOpenRate monthKeyB opensB deliversB 0 = PdFloat.posInf := by
  refine ⟨by decide, by decide, by decide, ?_, by decide, by decide, ?_⟩
  · have h1 : monthlyOpens monthKeyB opensB 2 = 0 := by decide
    have h2 : monthlyDelivers monthKeyB deliversB 2 = 1 := by decide
    unfold monthlyOpenRate
    rw [h1, h2]
    norm_num [pdDiv, PdFloat.fillna0]
  · have h1 : monthlyOpens monthKeyB opensB 0 = 1 := by decide
    have h2 : monthlyDelivers monthKeyB deliversB 0 = 0 := by decide
    unfold monthlyOpenRate
    rw [h1, h2]
    norm_num [pdDiv, PdFloat.fillna0]

end Substack
